import Mathlib

/-!
Verification of the HTTP transport of the CoreAuth Python SDK and error-mapping
layer (`coreauth/_http.py`, `coreauth/exceptions.py`) and of the request
construction of representative service facades (`coreauth/services/auth.py`,
`coreauth/services/scim.py`).

The embedding is shallow: Python dictionaries parsed from JSON become an
inductive `Json` value; an `httpx.Response`, as observed by the transport,
becomes a record of its status code, raw body text, and the outcome of
attempting to parse the body as JSON; raising a typed exception becomes
returning a `HandleResult.failure` carrying the error data; the network
itself becomes an explicit `send : Request → Response` function.
-/

/-- A JSON value, as produced by a successful `resp.json()` call.
Objects keep insertion order, as Python dicts do. -/
inductive Json where
  | null
  | bool (b : Bool)
  | num (n : Int)
  | str (s : String)
  | arr (elems : List Json)
  | obj (fields : List (String × Json))

/-- The error kind: in the Python source this is the runtime class of the
raised exception (`ApiError` itself or one of its six subclasses). -/
inductive ErrorKind where
  | api
  | validation
  | authentication
  | forbidden
  | notFound
  | conflict
  | rateLimit
deriving DecidableEq, Repr

/-- Data carried by a raised `ApiError` (or subclass): the exception class
(`kind`), and the `status_code`, `error`, `message` attributes set by
`ApiError.__init__`.  `error` and `message` are `Json` values because Python
stores whatever `body.get(...)` returned. -/
structure ApiError where
  kind : ErrorKind
  status_code : Nat
  error : Json
  message : Json

/-- Mirrors `ApiError.__init__(status_code, error="", message="")`: the
generic non-2xx error with the given status code. -/
def ApiError.init (status_code : Nat) (error : Json := Json.str "")
    (message : Json := Json.str "") : ApiError :=
  ⟨ErrorKind.api, status_code, error, message⟩

/-- Mirrors `AuthenticationError.__init__`, which calls
`super().__init__(401, error, message)` with the listed defaults. -/
def AuthenticationError (error : Json := Json.str "unauthorized")
    (message : Json := Json.str "Authentication required") : ApiError :=
  ⟨ErrorKind.authentication, 401, error, message⟩

/-- Mirrors `ForbiddenError.__init__`. -/
def ForbiddenError (error : Json := Json.str "forbidden")
    (message : Json := Json.str "Insufficient permissions") : ApiError :=
  ⟨ErrorKind.forbidden, 403, error, message⟩

/-- Mirrors `NotFoundError.__init__`. -/
def NotFoundError (error : Json := Json.str "not_found")
    (message : Json := Json.str "Resource not found") : ApiError :=
  ⟨ErrorKind.notFound, 404, error, message⟩

/-- Mirrors `ConflictError.__init__`. -/
def ConflictError (error : Json := Json.str "conflict")
    (message : Json := Json.str "Resource already exists") : ApiError :=
  ⟨ErrorKind.conflict, 409, error, message⟩

/-- Mirrors `ValidationError.__init__`. -/
def ValidationError (error : Json := Json.str "validation_error")
    (message : Json := Json.str "Invalid request") : ApiError :=
  ⟨ErrorKind.validation, 400, error, message⟩

/-- Mirrors `RateLimitError.__init__`. -/
def RateLimitError (error : Json := Json.str "rate_limited")
    (message : Json := Json.str "Rate limit exceeded") : ApiError :=
  ⟨ErrorKind.rateLimit, 429, error, message⟩

/-- An `httpx.Response` as the transport observes it: `status_code`, the raw
body text (`resp.text`; `resp.content` is empty exactly when `text = ""`),
and the outcome of attempting `resp.json()` (`none` when parsing raises). -/
structure Response where
  status_code : Nat
  text : String
  json : Option Json

/-- Outcome of `HttpClient._handle_response`: a returned value (`none` for a
204 or empty-body success), a raised typed error, or the uncaught
`resp.json()` decode exception on a non-empty 2xx body that is not JSON. -/
inductive HandleResult where
  | success (value : Option Json)
  | failure (e : ApiError)
  | decodeError

/-- Mirrors the `error_map` dict in `_handle_response`: the six status codes
with a specific exception class; `error_map.get` yields `none` elsewhere. -/
def error_map (status_code : Nat) : Option (Json → Json → ApiError) :=
  if status_code = 400 then some (fun e m => ValidationError e m)
  else if status_code = 401 then some (fun e m => AuthenticationError e m)
  else if status_code = 403 then some (fun e m => ForbiddenError e m)
  else if status_code = 404 then some (fun e m => NotFoundError e m)
  else if status_code = 409 then some (fun e m => ConflictError e m)
  else if status_code = 429 then some (fun e m => RateLimitError e m)
  else none

/-- Mirrors `HttpClient._handle_response`.  The `try` block covers both
`resp.json()` and the two `body.get` calls, so a body that parses to a
non-object JSON value also falls into the `except` branch (`AttributeError`
from `.get`), yielding `error = ""` and `message = resp.text`. -/
def _handle_response (resp : Response) : HandleResult :=
  if resp.status_code = 204 then HandleResult.success none
  else if 200 ≤ resp.status_code ∧ resp.status_code < 300 then
    if resp.text = "" then HandleResult.success none
    else
      match resp.json with
      | some body => HandleResult.success (some body)
      | none => HandleResult.decodeError
  else
    let em : Json × Json :=
      match resp.json with
      | some (Json.obj fields) =>
          ((fields.lookup "error").getD (Json.str ""),
           (fields.lookup "message").getD (Json.str ""))
      | _ => (Json.str "", Json.str resp.text)
    match error_map resp.status_code with
    | some cls => HandleResult.failure (cls em.1 em.2)
    | none => HandleResult.failure (ApiError.init resp.status_code em.1 em.2)

/-- Extracts the raised error from a `HandleResult`, if any. -/
def HandleResult.failureData : HandleResult → Option ApiError
  | HandleResult.failure e => some e
  | _ => none

/-- Removes trailing occurrences of `c` from `s`, as Python `s.rstrip(c)`. -/
def rstripChar (s : String) (c : Char) : String :=
  String.mk ((s.data.reverse.dropWhile (fun x => x = c)).reverse)

/-- State of `HttpClient`: the normalized base URL and the mutable bearer
token cell (`None` or a string, possibly empty). -/
structure HttpClient where
  _base_url : String
  _token : Option String

/-- Mirrors `HttpClient.__init__(base_url, token=None)`. -/
def HttpClient.init (base_url : String) (token : Option String := none) : HttpClient :=
  ⟨rstripChar base_url '/', token⟩

/-- Mirrors `HttpClient.set_token`. -/
def HttpClient.set_token (c : HttpClient) (token : String) : HttpClient :=
  { c with _token := some token }

/-- Mirrors `HttpClient.clear_token`. -/
def HttpClient.clear_token (c : HttpClient) : HttpClient :=
  { c with _token := none }

/-- Mirrors `HttpClient._headers`: `Content-Type` always; `Authorization`
only when `if self._token:` holds, i.e. the token is set and non-empty
(Python truthiness of an optional string). -/
def HttpClient._headers (c : HttpClient) : List (String × String) :=
  [("Content-Type", "application/json")] ++
    (match c._token with
     | some t => if t = "" then [] else [("Authorization", "Bearer " ++ t)]
     | none => [])

/-- Mirrors `HttpClient._form_headers` (same truthiness test, form content
type). -/
def HttpClient._form_headers (c : HttpClient) : List (String × String) :=
  [("Content-Type", "application/x-www-form-urlencoded")] ++
    (match c._token with
     | some t => if t = "" then [] else [("Authorization", "Bearer " ++ t)]
     | none => [])

/-- The single outbound HTTP request a transport method performs: verb,
full URL, headers, optional query mapping, optional JSON body. -/
structure Request where
  method : String
  url : String
  headers : List (String × String)
  params : Option (List (String × Json))
  body : Option Json

/-- The request built by `HttpClient.get`: URL is `base_url + path`, headers
from `_headers()`, the query mapping passed through as given. -/
def HttpClient.getRequest (c : HttpClient) (path : String)
    (params : Option (List (String × Json)) := none) : Request :=
  ⟨"GET", c._base_url ++ path, c._headers, params, none⟩

/-- The request built by `HttpClient.post`: URL is `base_url + path`,
headers from `_headers()`, JSON body passed through as given. -/
def HttpClient.postRequest (c : HttpClient) (path : String)
    (json : Option Json := none) : Request :=
  ⟨"POST", c._base_url ++ path, c._headers, none, json⟩

/-- Performing a transport call: the network is an explicit
`send : Request → Response`; the response goes through `_handle_response`. -/
def runRequest (send : Request → Response) (req : Request) : HandleResult :=
  _handle_response (send req)

/-- Python dict assignment `p[k] = v`: replaces the value in place when the
key exists (keeping insertion order), otherwise appends the pair. -/
def setParam (p : List (String × Json)) (k : String) (v : Json) :
    List (String × Json) :=
  if p.any (fun kv => kv.1 == k) then
    p.map (fun kv => if kv.1 == k then (k, v) else kv)
  else p ++ [(k, v)]

/-- Mirrors `AuthService.login`: the single `POST /api/auth/login` request
with the JSON body built from the three arguments. -/
def AuthService.login (http : HttpClient)
    (tenant_id email password : String) : Request :=
  http.postRequest "/api/auth/login"
    (some (Json.obj
      [("tenant_id", Json.str tenant_id),
       ("email", Json.str email),
       ("password", Json.str password)]))

/-- Mirrors `AuthService.create_login_flow_browser`: a params dict built by
truthiness-guarded assignments, then passed as `params or None`. -/
def AuthService.create_login_flow_browser (http : HttpClient)
    (organization_id : Option String := none)
    (request_id : Option String := none) : Request :=
  let params : List (String × Json) := []
  let params :=
    match organization_id with
    | some oid => if oid = "" then params
                  else setParam params "organization_id" (Json.str oid)
    | none => params
  let params :=
    match request_id with
    | some rid => if rid = "" then params
                  else setParam params "request_id" (Json.str rid)
    | none => params
  http.getRequest "/self-service/login/browser"
    (if params.isEmpty then none else some params)

/-- Mirrors `ScimService.list_users`: starts from the extra keyword bag,
adds `filter` when truthy, `count` and `startIndex` when not `None`, and
passes the dict as `p or None`. -/
def ScimService.list_users (http : HttpClient)
    (filter : Option String := none) (count : Option Int := none)
    (start_index : Option Int := none)
    (params : List (String × Json) := []) : Request :=
  let p := params
  let p :=
    match filter with
    | some f => if f = "" then p else setParam p "filter" (Json.str f)
    | none => p
  let p :=
    match count with
    | some n => setParam p "count" (Json.num n)
    | none => p
  let p :=
    match start_index with
    | some n => setParam p "startIndex" (Json.num n)
    | none => p
  http.getRequest "/scim/v2/Users" (if p.isEmpty then none else some p)

/-- The key `k` does not occur in an (optional) outgoing query mapping. -/
def queryKeyAbsent (params : Option (List (String × Json))) (k : String) : Prop :=
  match params with
  | none => True
  | some l => l.lookup k = none

/-- Helper: on any non-2xx response, `_handle_response` takes the error
branch: error/message from the body when it parses to a JSON object, else
empty error and raw text, dispatched through `error_map`. -/
theorem handle_response_error_branch (resp : Response)
    (h2 : ¬(200 ≤ resp.status_code ∧ resp.status_code < 300)) :
    _handle_response resp =
      (let em : Json × Json :=
        match resp.json with
        | some (Json.obj fields) =>
            ((fields.lookup "error").getD (Json.str ""),
             (fields.lookup "message").getD (Json.str ""))
        | _ => (Json.str "", Json.str resp.text)
      match error_map resp.status_code with
      | some cls => HandleResult.failure (cls em.1 em.2)
      | none => HandleResult.failure (ApiError.init resp.status_code em.1 em.2)) := by
  have h204 : ¬(resp.status_code = 204) := by omega
  unfold _handle_response
  rw [if_neg h204, if_neg h2]

/-- Helper: whatever error/message pair `e`, `m` the parsing step produced,
the `error_map` dispatch raises an error carrying exactly `e` and `m`, and
a 404 status raises the NotFound kind. -/
theorem dispatch_error (s : Nat) (e m : Json) :
    ∃ E : ApiError,
      (match error_map s with
       | some cls => HandleResult.failure (cls e m)
       | none => HandleResult.failure (ApiError.init s e m)) =
        HandleResult.failure E
    ∧ E.error = e ∧ E.message = m
    ∧ (s = 404 → E.kind = ErrorKind.notFound) := by
  by_cases h404 : s = 404
  · subst h404
    exact ⟨NotFoundError e m, by simp [error_map, NotFoundError], rfl, rfl,
      fun _ => rfl⟩
  by_cases h400 : s = 400
  · subst h400
    exact ⟨ValidationError e m, by simp [error_map, ValidationError], rfl, rfl,
      fun h => absurd h (by decide)⟩
  by_cases h401 : s = 401
  · subst h401
    exact ⟨AuthenticationError e m, by simp [error_map, AuthenticationError],
      rfl, rfl, fun h => absurd h (by decide)⟩
  by_cases h403 : s = 403
  · subst h403
    exact ⟨ForbiddenError e m, by simp [error_map, ForbiddenError], rfl, rfl,
      fun h => absurd h (by decide)⟩
  by_cases h409 : s = 409
  · subst h409
    exact ⟨ConflictError e m, by simp [error_map, ConflictError], rfl, rfl,
      fun h => absurd h (by decide)⟩
  by_cases h429 : s = 429
  · subst h429
    exact ⟨RateLimitError e m, by simp [error_map, RateLimitError], rfl, rfl,
      fun h => absurd h (by decide)⟩
  exact ⟨ApiError.init s e m,
    by simp [error_map, h400, h401, h403, h404, h409, h429], rfl, rfl,
    fun h => absurd h h404⟩

/-- C1: for every response with status code in {400, 401, 403, 404, 409,
429} whose body parses as JSON with fields `error = e` and `message = m`,
`_handle_response` fails with the error kind the status maps to
(400 Validation, 401 Authentication, 403 Forbidden, 404 NotFound,
409 Conflict, 429 RateLimit), carrying exactly `e` and `m`, not the
constructor defaults. -/
theorem spec_C1 (resp : Response) (fields : List (String × Json)) (e m : Json)
    (hjson : resp.json = some (Json.obj fields))
    (he : fields.lookup "error" = some e)
    (hm : fields.lookup "message" = some m) :
    (resp.status_code = 400 → _handle_response resp =
      HandleResult.failure ⟨ErrorKind.validation, 400, e, m⟩)
  ∧ (resp.status_code = 401 → _handle_response resp =
      HandleResult.failure ⟨ErrorKind.authentication, 401, e, m⟩)
  ∧ (resp.status_code = 403 → _handle_response resp =
      HandleResult.failure ⟨ErrorKind.forbidden, 403, e, m⟩)
  ∧ (resp.status_code = 404 → _handle_response resp =
      HandleResult.failure ⟨ErrorKind.notFound, 404, e, m⟩)
  ∧ (resp.status_code = 409 → _handle_response resp =
      HandleResult.failure ⟨ErrorKind.conflict, 409, e, m⟩)
  ∧ (resp.status_code = 429 → _handle_response resp =
      HandleResult.failure ⟨ErrorKind.rateLimit, 429, e, m⟩) := by
  refine ⟨?_, ?_, ?_, ?_, ?_, ?_⟩ <;> intro hs <;>
    rw [handle_response_error_branch resp (by omega)] <;>
    rw [hjson] <;>
    simp [hs, error_map, ValidationError, AuthenticationError, ForbiddenError,
      NotFoundError, ConflictError, RateLimitError, he, hm]

/-- Witness for C1 at a concrete 401 response carrying a server-supplied
error code and message. -/
theorem spec_C1_witness :
    _handle_response
      ⟨401, "b", some (Json.obj
        [("error", Json.str "bad_token"), ("message", Json.str "expired")])⟩ =
    HandleResult.failure
      ⟨ErrorKind.authentication, 401, Json.str "bad_token", Json.str "expired"⟩ :=
  (spec_C1
    ⟨401, "b", some (Json.obj
      [("error", Json.str "bad_token"), ("message", Json.str "expired")])⟩
    [("error", Json.str "bad_token"), ("message", Json.str "expired")]
    (Json.str "bad_token") (Json.str "expired") rfl rfl rfl).2.1 rfl

/-- C2: `_handle_response` returns success with no value for a 204 response
regardless of body, and for any 2xx response with empty body; any other 2xx
response whose body parses as JSON yields success with the parsed body. -/
theorem spec_C2 (resp : Response) (j : Json) :
    (resp.status_code = 204 → _handle_response resp = HandleResult.success none)
  ∧ (200 ≤ resp.status_code → resp.status_code < 300 → resp.text = "" →
      _handle_response resp = HandleResult.success none)
  ∧ (200 ≤ resp.status_code → resp.status_code < 300 → resp.status_code ≠ 204 →
      resp.text ≠ "" → resp.json = some j →
      _handle_response resp = HandleResult.success (some j)) := by
  refine ⟨?_, ?_, ?_⟩
  · intro hs
    unfold _handle_response
    rw [if_pos hs]
  · intro h1 h2 ht
    unfold _handle_response
    by_cases h204 : resp.status_code = 204
    · rw [if_pos h204]
    · rw [if_neg h204, if_pos ⟨h1, h2⟩, if_pos ht]
  · intro h1 h2 h204 ht hj
    unfold _handle_response
    rw [if_neg h204, if_pos ⟨h1, h2⟩, if_neg ht, hj]

/-- Witness for C2: a 204 with a non-empty body, a 200 with an empty body,
and a 200 with body equal to the object with field a = 1. -/
theorem spec_C2_witness :
    _handle_response ⟨204, "ignored", none⟩ = HandleResult.success none
  ∧ _handle_response ⟨200, "", none⟩ = HandleResult.success none
  ∧ _handle_response ⟨200, "\x7b\"a\":1\x7d", some (Json.obj [("a", Json.num 1)])⟩ =
      HandleResult.success (some (Json.obj [("a", Json.num 1)])) :=
  ⟨(spec_C2 ⟨204, "ignored", none⟩ Json.null).1 rfl,
   (spec_C2 ⟨200, "", none⟩ Json.null).2.1 (by decide) (by decide) rfl,
   (spec_C2 ⟨200, "\x7b\"a\":1\x7d", some (Json.obj [("a", Json.num 1)])⟩
      (Json.obj [("a", Json.num 1)])).2.2
     (by decide) (by decide) (by decide) (by decide) rfl⟩

/-- C3: for every non-2xx response whose status has no specific mapping,
`_handle_response` fails with the generic `api` error kind carrying the raw
status code and the error/message parsed from the body. -/
theorem spec_C3 (resp : Response) (fields : List (String × Json)) (e m : Json)
    (hjson : resp.json = some (Json.obj fields))
    (he : fields.lookup "error" = some e)
    (hm : fields.lookup "message" = some m)
    (h2 : ¬(200 ≤ resp.status_code ∧ resp.status_code < 300))
    (hnm : resp.status_code ∉ [400, 401, 403, 404, 409, 429]) :
    _handle_response resp =
      HandleResult.failure ⟨ErrorKind.api, resp.status_code, e, m⟩ := by
  simp only [List.mem_cons, List.not_mem_nil, or_false, not_or] at hnm
  obtain ⟨n400, n401, n403, n404, n409, n429⟩ := hnm
  rw [handle_response_error_branch resp h2, hjson]
  simp [error_map, n400, n401, n403, n404, n409, n429, ApiError.init, he, hm]

/-- Witness for C3: status 500 with body fields error = x, message = y
fails with the generic API error carrying 500, x, y. -/
theorem spec_C3_witness :
    _handle_response
      ⟨500, "b", some (Json.obj
        [("error", Json.str "x"), ("message", Json.str "y")])⟩ =
    HandleResult.failure ⟨ErrorKind.api, 500, Json.str "x", Json.str "y"⟩ :=
  spec_C3
    ⟨500, "b", some (Json.obj
      [("error", Json.str "x"), ("message", Json.str "y")])⟩
    [("error", Json.str "x"), ("message", Json.str "y")]
    (Json.str "x") (Json.str "y") rfl rfl rfl (by decide) (by decide)

/-- C4: for every non-2xx response whose body does not parse as JSON, the
resulting error carries an empty error code and a message equal to the raw
response text; on a 404 the error kind is NotFound. -/
theorem spec_C4 (resp : Response)
    (h2 : ¬(200 ≤ resp.status_code ∧ resp.status_code < 300))
    (hj : resp.json = none) :
    ∃ E : ApiError, _handle_response resp = HandleResult.failure E
      ∧ E.error = Json.str "" ∧ E.message = Json.str resp.text
      ∧ (resp.status_code = 404 → E.kind = ErrorKind.notFound) := by
  rw [handle_response_error_branch resp h2, hj]
  exact dispatch_error resp.status_code (Json.str "") (Json.str resp.text)

/-- Witness for C4: a 404 with a non-JSON body yields a NotFound-kind error
with empty error code and the raw text as the message. -/
theorem spec_C4_witness :
    ∃ E : ApiError,
      _handle_response ⟨404, "gone fishing", none⟩ = HandleResult.failure E
      ∧ E.error = Json.str "" ∧ E.message = Json.str "gone fishing"
      ∧ ((404 : Nat) = 404 → E.kind = ErrorKind.notFound) :=
  spec_C4 ⟨404, "gone fishing", none⟩ (by decide) rfl

/-- C9: for every non-2xx response whose body parses as a JSON object
lacking the error and/or message keys, the raised error carries the empty
string for each missing field, not the documented defaults of the error kind. -/
theorem spec_C9 (resp : Response) (fields : List (String × Json))
    (h2 : ¬(200 ≤ resp.status_code ∧ resp.status_code < 300))
    (hjson : resp.json = some (Json.obj fields)) :
    ∃ E : ApiError, (_handle_response resp).failureData = some E
      ∧ (fields.lookup "error" = none → E.error = Json.str "")
      ∧ (fields.lookup "message" = none → E.message = Json.str "") := by
  rw [handle_response_error_branch resp h2, hjson]
  obtain ⟨E, hE, he, hm, -⟩ :=
    dispatch_error resp.status_code
      ((fields.lookup "error").getD (Json.str ""))
      ((fields.lookup "message").getD (Json.str ""))
  refine ⟨E, ?_, ?_, ?_⟩
  · dsimp only
    rw [hE]
    rfl
  · intro h
    rw [he, h]
    rfl
  · intro h
    rw [hm, h]
    rfl

/-- Witness for C9: a 401 whose body is the empty JSON object raises an
error carrying empty strings, not the 401 defaults. -/
theorem spec_C9_witness :
    ∃ E : ApiError,
      (_handle_response ⟨401, "\x7b\x7d", some (Json.obj [])⟩).failureData = some E
      ∧ (([] : List (String × Json)).lookup "error" = none → E.error = Json.str "")
      ∧ (([] : List (String × Json)).lookup "message" = none → E.message = Json.str "") :=
  spec_C9 ⟨401, "\x7b\x7d", some (Json.obj [])⟩ [] (by decide) rfl

/-- C8: each specific error-kind constructor invoked without explicit
values carries exactly the default error code and message from the status table,
and its fixed status code. -/
theorem spec_C8 :
    (ValidationError : ApiError) =
      ⟨ErrorKind.validation, 400, Json.str "validation_error",
        Json.str "Invalid request"⟩
  ∧ (AuthenticationError : ApiError) =
      ⟨ErrorKind.authentication, 401, Json.str "unauthorized",
        Json.str "Authentication required"⟩
  ∧ (ForbiddenError : ApiError) =
      ⟨ErrorKind.forbidden, 403, Json.str "forbidden",
        Json.str "Insufficient permissions"⟩
  ∧ (NotFoundError : ApiError) =
      ⟨ErrorKind.notFound, 404, Json.str "not_found",
        Json.str "Resource not found"⟩
  ∧ (ConflictError : ApiError) =
      ⟨ErrorKind.conflict, 409, Json.str "conflict",
        Json.str "Resource already exists"⟩
  ∧ (RateLimitError : ApiError) =
      ⟨ErrorKind.rateLimit, 429, Json.str "rate_limited",
        Json.str "Rate limit exceeded"⟩ :=
  ⟨rfl, rfl, rfl, rfl, rfl, rfl⟩

/-- C5 counterexample: the claim says the Authorization header is attached
iff a credential is currently set, and that after setToken(t) the next
request carries Bearer t.  Setting the empty-string token leaves the
credential set, yet the next request carries no Authorization header at
all, so no Bearer header equal to the claimed value is present. -/
theorem spec_C5_counterexample :
    ((HttpClient.init "http://h" none).set_token "")._token = some ""
  ∧ (((HttpClient.init "http://h" none).set_token "").getRequest
      "/api/auth/me" none).headers.lookup "Authorization" = none
  ∧ ¬ ((((HttpClient.init "http://h" none).set_token "").getRequest
      "/api/auth/me" none).headers.lookup "Authorization" =
        some ("Bearer " ++ "")) := by
  refine ⟨rfl, rfl, ?_⟩
  intro h
  rw [show (((HttpClient.init "http://h" none).set_token "").getRequest
    "/api/auth/me" none).headers.lookup "Authorization" = none from rfl] at h
  exact Option.noConfusion h

/-- C5 (amended): after setToken(t) with a non-empty t, the next request —
GET or POST — carries Authorization: Bearer t; after clearToken() the next
request carries no Authorization header. -/
theorem spec_C5 (c : HttpClient) (t path : String)
    (p : Option (List (String × Json))) (j : Option Json) (ht : t ≠ "") :
    ((c.set_token t).getRequest path p).headers.lookup "Authorization" =
        some ("Bearer " ++ t)
  ∧ ((c.set_token t).postRequest path j).headers.lookup "Authorization" =
        some ("Bearer " ++ t)
  ∧ (c.clear_token.getRequest path p).headers.lookup "Authorization" = none
  ∧ (c.clear_token.postRequest path j).headers.lookup "Authorization" = none := by
  refine ⟨?_, ?_, ?_, ?_⟩ <;>
    simp [HttpClient.getRequest, HttpClient.postRequest, HttpClient._headers,
      HttpClient.set_token, HttpClient.clear_token, List.lookup, ht]

/-- Witness for C5 (amended) at a concrete non-empty token. -/
theorem spec_C5_witness :
    (((HttpClient.init "http://h" none).set_token "tok").getRequest "/x"
        none).headers.lookup "Authorization" = some ("Bearer " ++ "tok")
  ∧ (((HttpClient.init "http://h" none).set_token "tok").postRequest "/x"
        none).headers.lookup "Authorization" = some ("Bearer " ++ "tok")
  ∧ ((HttpClient.init "http://h" none).clear_token.getRequest "/x"
        none).headers.lookup "Authorization" = none
  ∧ ((HttpClient.init "http://h" none).clear_token.postRequest "/x"
        none).headers.lookup "Authorization" = none :=
  spec_C5 (HttpClient.init "http://h" none) "tok" "/x" none none (by decide)

/-- C10: setToken of the empty string behaves like clearToken — the headers
are identical, the next request carries no Authorization header — and in
general the Authorization header is produced exactly for a non-empty token
(Python truthiness of the credential). -/
theorem spec_C10 (c : HttpClient) (t path : String)
    (p : Option (List (String × Json))) :
    (c.set_token "")._headers = c.clear_token._headers
  ∧ ((c.set_token "").getRequest path p).headers.lookup "Authorization" = none
  ∧ ((c.set_token t).getRequest path p).headers.lookup "Authorization" =
      (if t = "" then none else some ("Bearer " ++ t)) := by
  refine ⟨?_, ?_, ?_⟩
  · simp [HttpClient._headers, HttpClient.set_token, HttpClient.clear_token]
  · simp [HttpClient.getRequest, HttpClient._headers, HttpClient.set_token,
      List.lookup]
  · by_cases ht : t = ""
    · subst ht
      simp [HttpClient.getRequest, HttpClient._headers, HttpClient.set_token,
        List.lookup]
    · simp [HttpClient.getRequest, HttpClient._headers, HttpClient.set_token,
        List.lookup, ht]

/-- C6: login with tenant t1, email u at x.com, password pw issues exactly
one POST to base plus /api/auth/login carrying the three-field JSON body,
and when the server answers 200 with a JSON object the call returns that
decoded object verbatim. -/
theorem spec_C6 (http : HttpClient) (send : Request → Response)
    (txt : String) (j : Json)
    (hresp : send (AuthService.login http "t1" "u@x.com" "pw") =
      ⟨200, txt, some j⟩)
    (htxt : txt ≠ "") :
    (AuthService.login http "t1" "u@x.com" "pw").method = "POST"
  ∧ (AuthService.login http "t1" "u@x.com" "pw").url =
      http._base_url ++ "/api/auth/login"
  ∧ (AuthService.login http "t1" "u@x.com" "pw").body =
      some (Json.obj
        [("tenant_id", Json.str "t1"), ("email", Json.str "u@x.com"),
         ("password", Json.str "pw")])
  ∧ runRequest send (AuthService.login http "t1" "u@x.com" "pw") =
      HandleResult.success (some j) := by
  refine ⟨rfl, rfl, rfl, ?_⟩
  unfold runRequest
  rw [hresp]
  unfold _handle_response
  dsimp only
  rw [if_neg (by decide), if_pos (by decide), if_neg htxt]

/-- Witness for C6 with a server returning the token object with fields
access_token A, refresh_token R, token_type Bearer, expires_in 3600. -/
theorem spec_C6_witness :
    (AuthService.login (HttpClient.init "https://api.example.com" none)
        "t1" "u@x.com" "pw").method = "POST"
  ∧ (AuthService.login (HttpClient.init "https://api.example.com" none)
        "t1" "u@x.com" "pw").url =
      (HttpClient.init "https://api.example.com" none)._base_url ++
        "/api/auth/login"
  ∧ (AuthService.login (HttpClient.init "https://api.example.com" none)
        "t1" "u@x.com" "pw").body =
      some (Json.obj
        [("tenant_id", Json.str "t1"), ("email", Json.str "u@x.com"),
         ("password", Json.str "pw")])
  ∧ runRequest
      (fun _ => ⟨200, "tok",
        some (Json.obj
          [("access_token", Json.str "A"), ("refresh_token", Json.str "R"),
           ("token_type", Json.str "Bearer"), ("expires_in", Json.num 3600)])⟩)
      (AuthService.login (HttpClient.init "https://api.example.com" none)
        "t1" "u@x.com" "pw") =
      HandleResult.success
        (some (Json.obj
          [("access_token", Json.str "A"), ("refresh_token", Json.str "R"),
           ("token_type", Json.str "Bearer"), ("expires_in", Json.num 3600)])) :=
  spec_C6 (HttpClient.init "https://api.example.com" none)
    (fun _ => ⟨200, "tok",
      some (Json.obj
        [("access_token", Json.str "A"), ("refresh_token", Json.str "R"),
         ("token_type", Json.str "Bearer"), ("expires_in", Json.num 3600)])⟩)
    "tok"
    (Json.obj
      [("access_token", Json.str "A"), ("refresh_token", Json.str "R"),
       ("token_type", Json.str "Bearer"), ("expires_in", Json.num 3600)])
    rfl (by decide)

/-- C7: an optional query argument that is not supplied produces no key in
the outgoing query parameters, and when no optional argument is supplied no
query mapping is passed at all (None, not an empty mapping), both for
ScimService.list_users and AuthService.create_login_flow_browser. -/
theorem spec_C7 (http : HttpClient) (f : String) (cnt si : Int)
    (oid rid : String) :
    queryKeyAbsent
      (ScimService.list_users http none (some cnt) (some si) []).params "filter"
  ∧ queryKeyAbsent
      (ScimService.list_users http (some f) none (some si) []).params "count"
  ∧ queryKeyAbsent
      (ScimService.list_users http (some f) (some cnt) none []).params
      "startIndex"
  ∧ (ScimService.list_users http none none none []).params = none
  ∧ queryKeyAbsent
      (AuthService.create_login_flow_browser http none (some rid)).params
      "organization_id"
  ∧ queryKeyAbsent
      (AuthService.create_login_flow_browser http (some oid) none).params
      "request_id"
  ∧ (AuthService.create_login_flow_browser http none none).params = none := by
  refine ⟨?_, ?_, ?_, rfl, ?_, ?_, rfl⟩
  · simp [ScimService.list_users, setParam, queryKeyAbsent,
      HttpClient.getRequest, List.lookup]
  · by_cases hf : f = "" <;>
      simp [ScimService.list_users, setParam, queryKeyAbsent,
        HttpClient.getRequest, List.lookup, hf]
  · by_cases hf : f = "" <;>
      simp [ScimService.list_users, setParam, queryKeyAbsent,
        HttpClient.getRequest, List.lookup, hf]
  · by_cases hr : rid = "" <;>
      simp [AuthService.create_login_flow_browser, setParam, queryKeyAbsent,
        HttpClient.getRequest, List.lookup, hr]
  · by_cases ho : oid = "" <;>
      simp [AuthService.create_login_flow_browser, setParam, queryKeyAbsent,
        HttpClient.getRequest, List.lookup, ho]
